import Mathlib

/-!
Verification of the cash-grid normalization engine of the
`assignment_tracker` repository (`src/Projects/sybil_agent/src/core/normaliser.py`).

The Python module is shallowly embedded below.  Modelling conventions:

* A pandas `DataFrame` is a `Grid`: an ordered list of named columns, each an
  ordered list of cells.  Grids coming from the workbook loader are
  rectangular and carry the default positional integer index `0..n-1`.
* A cell is `blank` (NaN/NaT/missing), a number (`ℚ`, exact rationals standing
  in for Python floats/Decimals), a text value, or a datetime value
  (represented as a day number, days since 1970-01-01).
* `select_dtypes(include=[np.number])` is modelled by `colIsNumeric`: a column
  whose cells are all numbers or missing has a numeric dtype.
* `pd.Timestamp.now().date()` is modelled by an explicit `today : Int`
  parameter (day number) threaded into the call.
* Python exceptions are an explicit error type: `SchemaError` and
  `UnsupportedGridFormat` from the repository's `errors.py`, plus `pyError`
  for exceptions raised by third-party code that the module does not catch
  (pandas date-parse failures, `decimal` InvalidOperation).
* String-to-date parsing (`pd.to_datetime`) is modelled by an ISO
  `YYYY-MM-DD` parser; the exact set of accepted formats is irrelevant to the
  claims, only that some non-blank values parse and others fail.
* String-to-number coercion (`pd.to_numeric(errors=coerce)`) is modelled by a
  plain decimal parser, failures becoming missing.
-/

namespace Sybil

/-- Leading-segment test on character lists (`needle` starts `hay`). -/
def listHasLead : List Char → List Char → Bool
  | [], _ => true
  | _ :: _, [] => false
  | n :: ns, h :: hs => n == h && listHasLead ns hs

/-- Contiguous-segment test on character lists (`needle` occurs inside `hay`). -/
def listHasPart (needle : List Char) : List Char → Bool
  | [] => needle.isEmpty
  | h :: hs => listHasLead needle (h :: hs) || listHasPart needle hs

/-- Substring containment, modelling Python `re.search` with a literal pattern
(all patterns in the source are literal strings). -/
def strContains (hay needle : String) : Bool :=
  listHasPart needle.toList hay.toList

/-- ASCII lowercasing of one character. -/
def lowChar (c : Char) : Char :=
  if 65 ≤ c.toNat ∧ c.toNat ≤ 90 then Char.ofNat (c.toNat + 32) else c

/-- Python `str.lower()` (ASCII, which covers every name the source
matches). -/
def lowerStr (s : String) : String :=
  ⟨s.data.map lowChar⟩

/-- Python `str.replace` for the single-character replacement `_` → space. -/
def underscoreToSpace (s : String) : String :=
  ⟨s.data.map fun c => if c == '_' then ' ' else c⟩

/-- Split a character list at every occurrence of the separator. -/
def splitChar (c : Char) : List Char → List (List Char)
  | [] => [[]]
  | x :: xs =>
    let r := splitChar c xs
    if x == c then [] :: r
    else
      match r with
      | [] => [[x]]
      | h :: t => (x :: h) :: t

/-- Digit value of a character, if it is a digit. -/
def charDigit (c : Char) : Option Nat :=
  if '0' ≤ c ∧ c ≤ '9' then some (c.toNat - 48) else none

/-- Accumulating numeral parser over a digit list. -/
def digitsToNatAux (acc : Nat) : List Char → Option Nat
  | [] => some acc
  | c :: cs =>
    match charDigit c with
    | some d => digitsToNatAux (acc * 10 + d) cs
    | none => none

/-- Parse a non-empty all-digit character list (Python `int`, as used on the
split date fields). -/
def parseNatDigits : List Char → Option Nat
  | [] => none
  | l => digitsToNatAux 0 l

/-- Day number (days since 1970-01-01) of a proleptic-Gregorian calendar date,
standard civil-from-days era computation. -/
def daysFromCivil (y m d : Nat) : Int :=
  let Y : Int := if m ≤ 2 then (y : Int) - 1 else (y : Int)
  let era : Int := Int.fdiv Y 400
  let yoe : Int := Y - era * 400
  let mp : Int := ((m : Int) + 9) % 12
  let doy : Int := (153 * mp + 2) / 5 + (d : Int) - 1
  let doe : Int := yoe * 365 + yoe / 4 - yoe / 100 + doy
  era * 146097 + doe - 719468

/-- Parse an ISO `YYYY-MM-DD` string to a day number (model of the string
formats accepted by `pd.to_datetime`; anything else fails to parse). -/
def parseDateString (s : String) : Option Int :=
  match (splitChar '-' s.data).map parseNatDigits with
  | [some y, some m, some d] =>
    if 1 ≤ y ∧ 1 ≤ m ∧ m ≤ 12 ∧ 1 ≤ d ∧ d ≤ 31 then
      some (daysFromCivil y m d)
    else none
  | _ => none

/-- Parse an unsigned decimal numeral with an optional fractional part. -/
def parseNumCore (l : List Char) : Option ℚ :=
  match splitChar '.' l with
  | [ip] => (parseNatDigits ip).map fun n => (n : ℚ)
  | [ip, fp] =>
    match parseNatDigits ip, parseNatDigits fp with
    | some a, some b => some ((a : ℚ) + (b : ℚ) / ((10 : ℚ) ^ fp.length))
    | _, _ => none
  | _ => none

/-- Parse a plain decimal numeral (optionally signed, optional fractional
part), modelling the strings `pd.to_numeric` accepts. -/
def parseNumString (s : String) : Option ℚ :=
  match s.data with
  | '-' :: rest => (parseNumCore rest).map fun q => -q
  | l => parseNumCore l

/-- One spreadsheet cell: missing (NaN/NaT), a number, a text, or a datetime
value (day number). -/
inductive Cell where
  | blank
  | num (q : ℚ)
  | str (s : String)
  | date (d : Int)
deriving DecidableEq

/-- Pandas notna/isna on a cell. -/
def Cell.isBlank : Cell → Bool
  | .blank => true
  | _ => false

/-- Datetime interpretation of a non-missing cell under `pd.to_datetime`:
datetime cells pass through, numbers are nanosecond offsets from the epoch,
strings go through the date parser. -/
def parseDateCell : Cell → Option Int
  | .blank => none
  | .date d => some d
  | .num q => some ⌊q / (86400000000000 : ℚ)⌋
  | .str s => parseDateString s

/-- Numeric value of a cell in a numeric-dtype column (`melt` value cells). -/
def cellToNumOpt : Cell → Option ℚ
  | .num q => some q
  | _ => none

/-- `pd.to_numeric(errors=coerce)` on a cell: failures become missing. -/
def cellToNumCoerce : Cell → Option ℚ
  | .num q => some q
  | .str s => parseNumString s
  | _ => none

/-- `astype(str)` on a cell: the float NaN stringifies to the literal text
"nan". -/
def cellToStr : Cell → String
  | .blank => "nan"
  | .str s => s
  | .num q => if q.den = 1 then toString q.num else toString q
  | .date d => toString d

/-- A named column of a raw grid. -/
structure Col where
  name : String
  cells : List Cell
deriving DecidableEq

/-- A raw grid: ordered named columns (a pandas DataFrame with the default
positional index). -/
structure Grid where
  cols : List Col
deriving DecidableEq

/-- Row count of the grid (`len(df)`). -/
def Grid.nRows (g : Grid) : Nat :=
  match g.cols with
  | [] => 0
  | c :: _ => c.cells.length

/-- Pandas `df.empty`: true when either axis has length zero. -/
def Grid.isEmptyTable (g : Grid) : Bool :=
  g.cols.isEmpty || g.nRows == 0

/-- Numeric dtype test (`select_dtypes(include=[np.number])`): every cell is a
number or missing. -/
def colIsNumeric (c : Col) : Bool :=
  c.cells.all fun x =>
    match x with
    | .num _ => true
    | .blank => true
    | _ => false

/-- The grid's numeric-dtype columns, in original order. -/
def numericCols (g : Grid) : List Col :=
  g.cols.filter colIsNumeric

/-- Number of numeric-dtype columns. -/
def numericColCount (g : Grid) : Nat :=
  (numericCols g).length

/-- `non_numeric_cols` of `_process_longwave_grid`: columns whose label is not
among the numeric columns' labels. -/
def nonNumericCols (g : Grid) : List Col :=
  g.cols.filter fun c => !(((numericCols g).map Col.name).contains c.name)

/-- Date-column name patterns of `_find_date_columns` (all literal). -/
def datePatternList : List String :=
  ["date", "due", "schedule", "payment_date", "cash_date",
   "invoice_date", "bill_date", "txn_date", "transaction_date"]

/-- Amount-column name patterns of `_find_amount_columns` (all literal). -/
def amountPatternList : List String :=
  ["amount", "value", "total", "sum", "balance",
   "cash", "dollar", "usd", "price"]

/-- Date/time exclusion patterns of `_find_amount_columns`. -/
def dateExclusionList : List String :=
  ["date", "time", "day", "month", "year"]

/-- `_column_contains_dates`: probe the first 10 non-missing values; true when
the sample is non-empty and every sampled value parses as a date. -/
def _column_contains_dates (cells : List Cell) : Bool :=
  let sample := (cells.filter fun c => !c.isBlank).take 10
  if sample.isEmpty then false
  else sample.all fun c => (parseDateCell c).isSome

/-- `_find_date_columns`: name-pattern match, or (for names containing "date"
that did not already match — dead in practice since "date" is itself a
pattern) a content probe. -/
def _find_date_columns (g : Grid) : List Col :=
  g.cols.filter fun c =>
    let l := lowerStr c.name
    if datePatternList.any (fun p => strContains l p) then true
    else strContains l "date" && _column_contains_dates c.cells

/-- True when the lowercased column name matches a date/time exclusion
pattern. -/
def dateExclMatch (c : Col) : Bool :=
  dateExclusionList.any fun p => strContains (lowerStr c.name) p

/-- True when the lowercased column name matches an amount pattern. -/
def amountNameMatch (c : Col) : Bool :=
  amountPatternList.any fun p => strContains (lowerStr c.name) p

/-- `_find_amount_columns`: skip date/time-named columns, then include by
amount-name match or by numeric dtype. -/
def _find_amount_columns (g : Grid) : List Col :=
  g.cols.filter fun c =>
    if dateExclMatch c then false
    else if amountNameMatch c then true
    else colIsNumeric c

/-- `_detect_grid_layout`: exactly 13 numeric columns is longwave; otherwise a
date column and an amount column make a simple list; otherwise unknown. -/
def _detect_grid_layout (g : Grid) : String :=
  if numericColCount g = 13 then "longwave"
  else if (_find_date_columns g).length ≥ 1 ∧ (_find_amount_columns g).length ≥ 1 then
    "simple_list"
  else "unknown"

/-- Transaction direction. -/
inductive TxnType where
  | AP
  | AR
deriving DecidableEq

/-- Intermediate row produced by a layout processor: the pre-canonical columns
counterparty / scheduled_date / amount / line_source.  Counterparty is a raw
cell because the longwave path passes raw values through unconverted. -/
structure IRow where
  counterparty : Cell
  scheduled_date : Option Int
  amount : Option ℚ
  line_source : String
deriving DecidableEq

/-- One unpivoted record of `df.melt`: `idx` is the positional label the
melted frame's fresh RangeIndex assigns the record (melt stacks one block per
value column, each block listing all rows in order, so the record for raw row
`i` under the `j`-th value column sits at position `j * nRows + i`). -/
structure MeltRow where
  idx : Nat
  counterparty : Cell
  period : String
  amount : Option ℚ
deriving DecidableEq

/-- The default column used when indexing past the end of a column list
(never reached on rectangular grids). -/
def emptyCol : Col := { name := "", cells := [] }

/-- `df.melt(id_vars=[cp], value_vars=vars)`: column-major unpivot with the
fresh positional index recorded per record. -/
def meltLongwave (cp : Col) (vars : List Col) (n : Nat) : List MeltRow :=
  (List.range vars.length).flatMap fun j =>
    (List.range n).map fun i =>
      { idx := j * n + i
        counterparty := cp.cells.getD i .blank
        period := (vars.getD j emptyCol).name
        amount := cellToNumOpt ((vars.getD j emptyCol).cells.getD i .blank) }

/-- Dictionary lookup where later insertions override earlier ones (Python
dict built left to right). -/
def lookupLastD (l : List (String × Int)) (k : String) : Option Int :=
  (l.filter fun p => p.1 == k).getLast?.map Prod.snd

/-- Error kinds raised by the module: the repository's own `SchemaError` and
`UnsupportedGridFormat`, plus uncaught third-party exceptions. -/
inductive NormError where
  | schemaError (msg : String)
  | unsupportedGridFormat (msg : String)
  | pyError (msg : String)
deriving DecidableEq

/-- `_process_longwave_grid`: unpivot the first 13 numeric columns against the
first non-numeric column, drop missing/zero cells, map period columns to
weekly dates anchored at `today`, and tag provenance from the melted index. -/
def _process_longwave_grid (today : Int) (g : Grid) : Except NormError (List IRow) :=
  match nonNumericCols g with
  | [] => .error (.unsupportedGridFormat
      "Longwave grid must have at least one text column for counterparty")
  | cp :: _ =>
    let vars := (numericCols g).take 13
    let n := g.nRows
    let melted := meltLongwave cp vars n
    let melted := melted.filter fun r => r.amount.isSome
    let melted := melted.filter fun r => !(r.amount == some 0)
    let pmap := (List.range vars.length).map fun j =>
      ((vars.getD j emptyCol).name, today + 7 * (j : Int))
    .ok (melted.map fun r =>
      { counterparty := r.counterparty
        scheduled_date := lookupLastD pmap r.period
        amount := r.amount
        line_source := toString r.idx ++ ":" ++ r.period })

/-- Counterparty-column name patterns of `_process_simple_list`. -/
def counterpartyPatternList : List String :=
  ["vendor", "customer", "counterparty", "party",
   "description", "memo", "details", "name", "company"]

/-- Counterparty-column search: first column (original order) whose lowercased
name, underscores replaced by spaces, matches a counterparty pattern. -/
def findCounterpartyCol (g : Grid) : Option Col :=
  g.cols.find? fun c =>
    let l := underscoreToSpace (lowerStr c.name)
    counterpartyPatternList.any fun p => strContains l p

/-- `pd.to_datetime(series)` with the default `errors=raise`: missing cells
become NaT, any non-missing cell that fails to parse raises. -/
def toDatetimeRaise : List Cell → Except NormError (List (Option Int))
  | [] => .ok []
  | c :: rest =>
    match c with
    | .blank => (toDatetimeRaise rest).map fun l => none :: l
    | c =>
      match parseDateCell c with
      | some d => (toDatetimeRaise rest).map fun l => some d :: l
      | none => .error (.pyError "Unable to parse date")

/-- The intermediate row `_process_simple_list` builds for raw row `i`,
before the dropna/zero filters. -/
def mkSimpleRow (dcol acol : Col) (cpCol : Option Col) (dates : List (Option Int))
    (i : Nat) : IRow :=
  { counterparty :=
      match cpCol with
      | some c => Cell.str (cellToStr (c.cells.getD i .blank))
      | none => Cell.str "Unknown"
    scheduled_date := dates.getD i none
    amount := cellToNumCoerce (acol.cells.getD i .blank)
    line_source := toString i ++ ":" ++ dcol.name ++ "+" ++ acol.name }

/-- `_process_simple_list`: take the first date and amount columns, parse the
date column (raising on unparseable non-missing values), coerce the amount
column, stringify the detected counterparty column, then drop rows with a
missing date or missing/zero amount. -/
def _process_simple_list (g : Grid) : Except NormError (List IRow) :=
  match _find_date_columns g with
  | [] => .error (.unsupportedGridFormat
      "Simple list format requires at least one date column")
  | dcol :: _ =>
    match _find_amount_columns g with
    | [] => .error (.unsupportedGridFormat
        "Simple list format requires at least one amount column")
    | acol :: _ =>
      match toDatetimeRaise dcol.cells with
      | .error e => .error e
      | .ok dates =>
        let cpCol := findCounterpartyCol g
        let rows := (List.range g.nRows).map (mkSimpleRow dcol acol cpCol dates)
        let rows := rows.filter fun r => r.scheduled_date.isSome && r.amount.isSome
        let rows := rows.filter fun r => !(r.amount == some 0)
        .ok rows

/-- Sign of a single amount under `x >= 0` (pandas comparison with NaN is
false, selecting AP). -/
def signOfAmount (r : IRow) : TxnType :=
  match r.amount with
  | some q => if 0 ≤ q then .AR else .AP
  | none => .AP

/-- Sign-based fallback of `_infer_transaction_type`. -/
def signBasedType (rs : List IRow) : List TxnType :=
  rs.map signOfAmount

/-- `_infer_transaction_type`: sheet-name hint first (Python truthiness: the
empty string is no hint), then the sign-based fallback. -/
def _infer_transaction_type (rs : List IRow) (sheet_name : Option String) :
    List TxnType :=
  match sheet_name with
  | some s =>
    if s ≠ "" then
      let l := lowerStr s
      if strContains l "payable" || strContains l "ap" then rs.map fun _ => .AP
      else if strContains l "receivable" || strContains l "ar" then
        rs.map fun _ => .AR
      else signBasedType rs
    else signBasedType rs
  | none => signBasedType rs

/-- Canonical output row. -/
structure CRow where
  txn_type : TxnType
  counterparty : Cell
  scheduled_date : Option Int
  amount : ℚ
  line_source : String
deriving DecidableEq

/-- Canonical output table: the final `df[required_cols]` projection fixes the
column list. -/
structure OutTable where
  columns : List String
  rows : List CRow
deriving DecidableEq

/-- The required canonical columns, in the fixed output order. -/
def requiredCols : List String :=
  ["txn_type", "counterparty", "scheduled_date", "amount", "line_source"]

/-- Counterparty cleanup of `_cleanup_normalized_data`: `fillna("Unknown")`
followed by replacing the empty string with "Unknown". -/
def fillCounterparty (c : Cell) : Cell :=
  match c with
  | .blank => .str "Unknown"
  | c => if c = .str "" then .str "Unknown" else c

/-- Round half to even (the default `decimal` rounding of `quantize`). -/
def roundHalfEven (q : ℚ) : Int :=
  let f := ⌊q⌋
  let r := q - f
  if r < 1 / 2 then f
  else if 1 / 2 < r then f + 1
  else if f % 2 = 0 then f else f + 1

/-- `Decimal(str(x)).quantize(Decimal(0.01))`: round to exactly two fractional
digits, half to even. -/
def quantizeCents (q : ℚ) : ℚ :=
  (roundHalfEven (q * 100) : ℚ) / 100

/-- Quantization pass of the cleanup (`apply` over the amount column): a
missing amount would be `Decimal(str(nan))`, whose quantize raises
InvalidOperation; present amounts are quantized to cents. -/
def quantizeRows : List (TxnType × IRow) → Except NormError (List CRow)
  | [] => .ok []
  | tr :: rest =>
    match tr.2.amount with
    | some q =>
      (quantizeRows rest).map fun l =>
        { txn_type := tr.1
          counterparty := tr.2.counterparty
          scheduled_date := tr.2.scheduled_date
          amount := quantizeCents q
          line_source := tr.2.line_source } :: l
    | none => .error (.pyError "InvalidOperation: cannot quantize NaN")

/-- `_cleanup_normalized_data`: fill missing/empty counterparty, drop rows
whose amount equals zero (a missing amount survives this comparison, as in
pandas), quantize amounts, and project the required columns in fixed order
(all five columns always exist in this typed embedding, so the internal
missing-column `SchemaError` branch is unreachable). -/
def _cleanup_normalized_data (rs : List (TxnType × IRow)) :
    Except NormError OutTable :=
  match quantizeRows
      ((rs.map fun tr =>
          (tr.1, { tr.2 with counterparty := fillCounterparty tr.2.counterparty })).filter
        fun tr => !(tr.2.amount == some 0)) with
  | .error e => .error e
  | .ok rows => .ok { columns := requiredCols, rows := rows }

/-- Layout dispatch of `normalise_cash_grid` (steps 1 and 2). -/
def selectAndProcess (today : Int) (g : Grid) : Except NormError (List IRow) :=
  let layout := _detect_grid_layout g
  if layout = "longwave" then _process_longwave_grid today g
  else if layout = "simple_list" then _process_simple_list g
  else .error (.unsupportedGridFormat ("Unsupported grid layout: " ++ layout))

/-- `normalise_cash_grid`: empty-grid guard, layout detection and processing,
transaction-type inference, sign normalization, cleanup. -/
def normalise_cash_grid (today : Int) (df_raw : Grid)
    (sheet_name : Option String) : Except NormError OutTable :=
  if df_raw.isEmptyTable then
    .error (.schemaError "Cannot normalize empty AP Cash Grid")
  else
    match selectAndProcess today df_raw with
    | .error e => .error e
    | .ok rs =>
      let txn := _infer_transaction_type rs sheet_name
      let withTxn := txn.zip rs
      let absd := withTxn.map fun tr =>
        (tr.1, { tr.2 with amount := tr.2.amount.map fun q => |q| })
      _cleanup_normalized_data absd

/-- A heap object of the call: the caller's raw frame, a processor's
intermediate frame, the same frame after the in-place `txn_type`/`amount`
column assignments, or the cleaned output frame. -/
inductive HeapObj where
  | gridObj (g : Grid)
  | itabObj (rs : List IRow)
  | ttabObj (rs : List (TxnType × IRow))
  | outObj (t : OutTable)
deriving DecidableEq

/-- Final step of the heap-level rendering: the cleanup starts with
`df.copy()`, so its successful result is appended to the store as a fresh
object; a failure leaves the store as it was. -/
def finishExec (heap3 : List HeapObj) (e : Except NormError OutTable) :
    List HeapObj × Except NormError OutTable :=
  match e with
  | .error er => (heap3, .error er)
  | .ok t => (heap3 ++ [.outObj t], .ok t)

/-- Heap-level rendering of `normalise_cash_grid`.  The store starts with the
caller's raw frame at position 0.  The selected processor allocates a fresh
frame (`melt`/`pd.DataFrame()` return new objects).  The two in-place column
assignments of steps 3 and 4 (`df_normalized[...] = ...`) write to that
allocated frame, position 1; the cleanup starts with `df.copy()` and appends
its result as a further fresh object.  No statement of the source writes into
the raw frame. -/
def normaliseExec (today : Int) (g : Grid) (sheet : Option String) :
    List HeapObj × Except NormError OutTable :=
  let heap0 : List HeapObj := [.gridObj g]
  if g.isEmptyTable then
    (heap0, .error (.schemaError "Cannot normalize empty AP Cash Grid"))
  else
    match selectAndProcess today g with
    | .error e => (heap0, .error e)
    | .ok rs =>
      let heap1 := heap0 ++ [.itabObj rs]
      let txn := _infer_transaction_type rs sheet
      let heap2 := heap1.set 1 (.ttabObj (txn.zip rs))
      let absd := (txn.zip rs).map fun tr =>
        (tr.1, { tr.2 with amount := tr.2.amount.map fun q => |q| })
      let heap3 := heap2.set 1 (.ttabObj absd)
      finishExec heap3 (_cleanup_normalized_data absd)

/-- Claim C3's description of the transaction-type inferencer, written from
the spec's words: a supplied sheet name containing "payable"/"ap" forces AP,
else "receivable"/"ar" forces AR, otherwise the pre-absolute-value amount
sign decides (≥ 0 is AR, < 0 is AP). -/
def claimInferTransactionType (rs : List IRow) (sheet_name : Option String) :
    List TxnType :=
  match sheet_name with
  | some s =>
    let l := lowerStr s
    if strContains l "payable" || strContains l "ap" then rs.map fun _ => .AP
    else if strContains l "receivable" || strContains l "ar" then
      rs.map fun _ => .AR
    else rs.map signOfAmount
  | none => rs.map signOfAmount

/-- Claim C6's description of an amount-like column, written from the spec's
words: not date/time-named, and either amount-named or uniformly numeric. -/
def claimAmountLike (c : Col) : Bool :=
  !dateExclMatch c && (amountNameMatch c || colIsNumeric c)

/-- Rows produced by `_process_simple_list` after the dropna/zero filters,
given the chosen date/amount columns, the detected counterparty column, and
the parsed date column. -/
def slRows (g : Grid) (dcol acol : Col) (cpCol : Option Col)
    (dates : List (Option Int)) : List IRow :=
  (((List.range g.nRows).map (mkSimpleRow dcol acol cpCol dates)).filter
      fun r => r.scheduled_date.isSome && r.amount.isSome).filter
    fun r => !(r.amount == some 0)

/-- Melted longwave records surviving the missing/zero filters. -/
def lwMelted (g : Grid) (cp : Col) : List MeltRow :=
  ((meltLongwave cp ((numericCols g).take 13) g.nRows).filter
      fun r => r.amount.isSome).filter
    fun r => !(r.amount == some 0)

/-- Rows produced by `_process_longwave_grid` given the counterparty column. -/
def lwRows (today : Int) (g : Grid) (cp : Col) : List IRow :=
  let vars := (numericCols g).take 13
  let pmap := (List.range vars.length).map fun j =>
    ((vars.getD j emptyCol).name, today + 7 * (j : Int))
  (lwMelted g cp).map fun r =>
    { counterparty := r.counterparty
      scheduled_date := lookupLastD pmap r.period
      amount := r.amount
      line_source := toString r.idx ++ ":" ++ r.period }

/-- The canonical row that steps 3–5 of the pipeline produce from an
intermediate row, given the per-row transaction type. -/
def finalizeRow (f : IRow → TxnType) (r : IRow) : CRow :=
  { txn_type := f r
    counterparty := fillCounterparty r.counterparty
    scheduled_date := r.scheduled_date
    amount := quantizeCents |r.amount.getD 0|
    line_source := r.line_source }

/-- Example grid: one text column plus 13 numeric columns, one of them named
"Date" (one row). -/
def exGrid13 : Grid :=
  ⟨⟨"Vendor", [.str "A"]⟩ :: ⟨"Date", [.num 1]⟩ ::
    (List.range 12).map fun j => ⟨"C" ++ toString j, [Cell.num 1]⟩⟩

/-- Example grid: a text "Date" column plus 12 numeric columns (one row). -/
def exGrid12 : Grid :=
  ⟨⟨"Date", [.str "2024-01-01"]⟩ ::
    (List.range 12).map fun j => ⟨"C" ++ toString j, [Cell.num 1]⟩⟩

/-- Example grid with two unrelated text columns only (the spec's
scenario 4). -/
def exGridTextOnly : Grid :=
  ⟨[⟨"Random1", [.str "A"]⟩, ⟨"Random2", [.str "X"]⟩]⟩

/-- Example grid: 13 numeric columns and no text column (one row). -/
def exGridNoText : Grid :=
  ⟨(List.range 13).map fun j => ⟨"C" ++ toString j, [Cell.num 1]⟩⟩

/-- Example longwave grid: a Vendor column with two rows and 13 numeric
columns W1..W13 whose only non-zero cell sits in raw row 1 of column W2. -/
def exGridLW : Grid :=
  ⟨⟨"Vendor", [.str "A", .str "B"]⟩ ::
    (List.range 13).map fun j =>
      ⟨"W" ++ toString (j + 1),
        [Cell.num 0, if j == 1 then Cell.num 5 else Cell.num 0]⟩⟩

/-- Date column of the bad-date example: the middle value parses as no date. -/
def exColBadDate : Col :=
  ⟨"Date", [.str "2024-01-01", .str "garbage", .str "2024-01-03"]⟩

/-- Date column of the blank-date example: the middle value is missing. -/
def exColBlankDate : Col :=
  ⟨"Date", [.str "2024-01-01", .blank, .str "2024-01-03"]⟩

/-- Amount column shared by the event-list examples. -/
def exColAmounts : Col := ⟨"Amount", [.num 1000, .num 2000, .num 3000]⟩

/-- Event-list grid with one unparseable (non-missing) date value. -/
def exGridBadDate : Grid := ⟨[exColBadDate, exColAmounts]⟩

/-- Event-list grid with one missing date value. -/
def exGridBlankDate : Grid := ⟨[exColBlankDate, exColAmounts]⟩

/-- Date column of the sub-cent example. -/
def exColOneDate : Col := ⟨"Date", [.str "2024-01-01"]⟩

/-- Amount column of the sub-cent example: 0.004 currency units. -/
def exColSubCent : Col := ⟨"Amount", [.num (1 / 250)]⟩

/-- Event-list grid whose only row carries the sub-cent amount 0.004. -/
def exGridSubCent : Grid := ⟨[exColOneDate, exColSubCent]⟩

/-- Date column of the missing-counterparty example. -/
def exColTwoDates : Col := ⟨"Date", [.str "2024-01-01", .str "2024-01-02"]⟩

/-- Vendor column of the missing-counterparty example: row 1 is missing. -/
def exColVendorBlank : Col := ⟨"Vendor", [.str "A", .blank]⟩

/-- Amount column of the missing-counterparty example. -/
def exColTwoAmounts : Col := ⟨"Amount", [.num 10, .num 20]⟩

/-- Event-list grid with a detected counterparty column whose row 1 cell is
missing. -/
def exGridNanCp : Grid := ⟨[exColTwoDates, exColVendorBlank, exColTwoAmounts]⟩

/-- Scenario-2 grid of the spec: Date, Vendor, Amount columns with amounts
1000, -2000, 3000 and no sheet hint. -/
def exGridS2 : Grid := ⟨[
  ⟨"Date", [.str "2024-01-01", .str "2024-01-02", .str "2024-01-03"]⟩,
  ⟨"Vendor", [.str "A", .str "B", .str "C"]⟩,
  ⟨"Amount", [.num 1000, .num (-2000), .num 3000]⟩]⟩

/-- C2: layout detection is a total three-way classification; exactly 13
numeric columns always yields longwave (the spec's wide-time-series), with
priority over the event-list check and regardless of column names; 12 or 14
numeric columns never yield longwave and instead fall through to the
date-and-amount-column check; a grid failing both checks is unknown
(unsupported). -/
theorem c2_layout_detection_total (g : Grid) :
    (_detect_grid_layout g = "longwave" ∨ _detect_grid_layout g = "simple_list" ∨
        _detect_grid_layout g = "unknown") ∧
    (numericColCount g = 13 → _detect_grid_layout g = "longwave") ∧
    ((numericColCount g = 12 ∨ numericColCount g = 14) →
      _detect_grid_layout g ≠ "longwave" ∧
      _detect_grid_layout g =
        if (_find_date_columns g).length ≥ 1 ∧ (_find_amount_columns g).length ≥ 1
        then "simple_list" else "unknown") ∧
    (numericColCount g ≠ 13 →
      ¬((_find_date_columns g).length ≥ 1 ∧ (_find_amount_columns g).length ≥ 1) →
      _detect_grid_layout g = "unknown") := by
  unfold _detect_grid_layout
  refine ⟨?_, ?_, ?_, ?_⟩
  · split
    · exact Or.inl rfl
    · split
      · exact Or.inr (Or.inl rfl)
      · exact Or.inr (Or.inr rfl)
  · intro h
    rw [if_pos h]
  · intro h
    have h13 : ¬ numericColCount g = 13 := by omega
    rw [if_neg h13]
    refine ⟨?_, rfl⟩
    split <;> decide
  · intro h13 hda
    rw [if_neg h13, if_neg hda]

/-- Witness for C2 at concrete grids: 13 numeric columns (one literally named
"Date") classify longwave; 12 numeric columns do not; a text-only grid is
unknown. -/
theorem c2_layout_detection_total_witness :
    _detect_grid_layout exGrid13 = "longwave" ∧
    _detect_grid_layout exGrid12 ≠ "longwave" ∧
    _detect_grid_layout exGridTextOnly = "unknown" :=
  ⟨(c2_layout_detection_total exGrid13).2.1 (by decide),
   ((c2_layout_detection_total exGrid12).2.2.1 (Or.inl (by decide))).1,
   (c2_layout_detection_total exGridTextOnly).2.2.2 (by decide) (by decide)⟩

/-- C3: the transaction-type inferencer equals the spec's description —
sheet-name hints containing "payable"/"ap" force AP, "receivable"/"ar" force
AR, and otherwise the pre-absolute-value amount sign decides, non-negative
being AR.  The pipeline applies it before sign normalization: on the spec's
scenario-2 grid (amounts 1000, -2000, 3000, no hint) the output types are
AR, AP, AR while every output amount is positive. -/
theorem c3_infer_transaction_type_spec :
    (∀ (rs : List IRow) (sheet : Option String),
      _infer_transaction_type rs sheet = claimInferTransactionType rs sheet) ∧
    normalise_cash_grid 0 exGridS2 none =
      .ok ⟨requiredCols,
        [⟨.AR, .str "A", some 19723, 1000, "0:Date+Amount"⟩,
         ⟨.AP, .str "B", some 19724, 2000, "1:Date+Amount"⟩,
         ⟨.AR, .str "C", some 19725, 3000, "2:Date+Amount"⟩]⟩ := by
  constructor
  · intro rs sheet
    cases sheet with
    | none => rfl
    | some s =>
      by_cases h : s = ""
      · subst h
        rfl
      · simp only [_infer_transaction_type, claimInferTransactionType,
          signBasedType, ne_eq, h, not_false_iff, if_true]
  · with_unfolding_all rfl

/-- C6: a column is amount-like exactly when it is not date/time-named and is
either amount-named or uniformly numeric. -/
theorem c6_find_amount_columns_spec (g : Grid) :
    _find_amount_columns g = g.cols.filter claimAmountLike := by
  unfold _find_amount_columns
  apply List.filter_congr
  intro c _
  unfold claimAmountLike
  cases hE : dateExclMatch c <;> cases hA : amountNameMatch c <;>
    cases hN : colIsNumeric c <;> simp

/-- C7: a non-empty grid classified longwave with no non-numeric column makes
`normalise_cash_grid` raise `UnsupportedGridFormat` naming the missing text
column for the counterparty. -/
theorem c7_longwave_no_text_column (today : Int) (g : Grid)
    (sheet : Option String) (hne : g.isEmptyTable = false)
    (hlw : _detect_grid_layout g = "longwave")
    (hnn : nonNumericCols g = []) :
    normalise_cash_grid today g sheet =
      .error (.unsupportedGridFormat
        "Longwave grid must have at least one text column for counterparty") := by
  unfold normalise_cash_grid selectAndProcess _process_longwave_grid
  rw [hlw, hnn]
  simp [hne]

/-- Witness for C7 at a concrete grid of 13 numeric columns and nothing else. -/
theorem c7_longwave_no_text_column_witness :
    normalise_cash_grid 0 exGridNoText none =
      .error (.unsupportedGridFormat
        "Longwave grid must have at least one text column for counterparty") :=
  c7_longwave_no_text_column 0 exGridNoText none (by decide) (by decide)
    (by decide)

/-- C8: an empty grid (zero rows or zero columns) makes `normalise_cash_grid`
raise `SchemaError` with the empty-grid message, before any layout handling. -/
theorem c8_empty_grid_schema_error (today : Int) (g : Grid)
    (sheet : Option String) (h : g.isEmptyTable = true) :
    normalise_cash_grid today g sheet =
      .error (.schemaError "Cannot normalize empty AP Cash Grid") := by
  unfold normalise_cash_grid
  rw [h]
  rfl

/-- Witness for C8 at the zero-column grid. -/
theorem c8_empty_grid_schema_error_witness :
    normalise_cash_grid 0 ⟨[]⟩ none =
      .error (.schemaError "Cannot normalize empty AP Cash Grid") :=
  c8_empty_grid_schema_error 0 ⟨[]⟩ none rfl

/-- Zipping a mapped list with its source pairs each element with its image. -/
theorem zip_map_self {α β : Type} (f : α → β) (l : List α) :
    (l.map f).zip l = l.map fun x => (f x, x) := by
  induction l with
  | nil => rfl
  | cons a l ih => simp [ih]

/-- Taking absolute values inside an optional amount commutes with the
zero-defaulted read. -/
theorem map_abs_getD (o : Option ℚ) :
    (o.map fun q => |q|).getD 0 = |o.getD 0| := by
  cases o <;> simp

/-- Length of a filtered map, pushed to a filter on the source list. -/
theorem length_filter_map {α β : Type} (f : α → β) (p : β → Bool) (l : List α) :
    ((l.map f).filter p).length = (l.filter fun a => p (f a)).length := by
  induction l with
  | nil => rfl
  | cons a l ih =>
    simp only [List.map_cons, List.filter_cons]
    cases p (f a) <;> simp [ih]

/-- The inferencer always returns a per-row map over its input rows. -/
theorem infer_eq_map (rs : List IRow) (sheet : Option String) :
    ∃ f : IRow → TxnType, _infer_transaction_type rs sheet = rs.map f := by
  cases sheet with
  | none => exact ⟨signOfAmount, rfl⟩
  | some s =>
    by_cases h0 : s = ""
    · subst h0
      exact ⟨signOfAmount, rfl⟩
    · unfold _infer_transaction_type
      cases hb1 : strContains (lowerStr s) "payable" || strContains (lowerStr s) "ap" with
      | true => exact ⟨fun _ => .AP, by simp [h0, hb1]⟩
      | false =>
        cases hb2 : strContains (lowerStr s) "receivable" || strContains (lowerStr s) "ar" with
        | true => exact ⟨fun _ => .AR, by simp [h0, hb1, hb2]⟩
        | false => exact ⟨signOfAmount, by simp [h0, hb1, hb2, signBasedType]⟩

/-- When every amount is present, the quantization pass succeeds and
quantizes row by row. -/
theorem quantizeRows_ok (l : List (TxnType × IRow))
    (h : ∀ tr ∈ l, (tr.2.amount).isSome) :
    quantizeRows l = .ok (l.map fun tr =>
      { txn_type := tr.1
        counterparty := tr.2.counterparty
        scheduled_date := tr.2.scheduled_date
        amount := quantizeCents (tr.2.amount.getD 0)
        line_source := tr.2.line_source }) := by
  induction l with
  | nil => rfl
  | cons tr rest ih =>
    obtain ⟨q, hq⟩ := Option.isSome_iff_exists.mp (h tr (List.mem_cons_self tr rest))
    have hrest := ih fun x hx => h x (List.mem_cons_of_mem tr hx)
    unfold quantizeRows
    rw [hq, hrest]
    simp [Except.map, hq]

/-- When every amount is present and non-zero, the cleanup succeeds, keeps
every row, fills the counterparty, quantizes the amount, and fixes the
canonical column order. -/
theorem cleanup_ok_of_amounts (l : List (TxnType × IRow))
    (h : ∀ tr ∈ l, ∃ q, tr.2.amount = some q ∧ q ≠ 0) :
    _cleanup_normalized_data l =
      .ok { columns := requiredCols
            rows := l.map fun tr =>
              { txn_type := tr.1
                counterparty := fillCounterparty tr.2.counterparty
                scheduled_date := tr.2.scheduled_date
                amount := quantizeCents (tr.2.amount.getD 0)
                line_source := tr.2.line_source } } := by
  unfold _cleanup_normalized_data
  have hfilt :
      ((l.map fun tr =>
          (tr.1, { tr.2 with counterparty := fillCounterparty tr.2.counterparty })).filter
        fun tr => !(tr.2.amount == some 0)) =
      l.map fun tr =>
        (tr.1, { tr.2 with counterparty := fillCounterparty tr.2.counterparty }) := by
    apply List.filter_eq_self.mpr
    intro tr htr
    obtain ⟨tr0, htr0, rfl⟩ := List.mem_map.mp htr
    obtain ⟨q, hq, hqz⟩ := h tr0 htr0
    simp [hq, hqz]
  rw [hfilt, quantizeRows_ok _ (by
    intro tr htr
    obtain ⟨tr0, htr0, rfl⟩ := List.mem_map.mp htr
    obtain ⟨q, hq, _⟩ := h tr0 htr0
    simp [hq])]
  rw [List.map_map]
  rfl

/-- Unfolding of the event-list processor when the chosen date column parses. -/
theorem _process_simple_list_eq (g : Grid) (dcol acol : Col) (dtl atl : List Col)
    (dates : List (Option Int))
    (hd : _find_date_columns g = dcol :: dtl)
    (ha : _find_amount_columns g = acol :: atl)
    (hdt : toDatetimeRaise dcol.cells = .ok dates) :
    _process_simple_list g =
      .ok (slRows g dcol acol (findCounterpartyCol g) dates) := by
  unfold _process_simple_list slRows
  simp only [hd, ha, hdt]

/-- Every event-list row surviving the processor has a present, non-zero
amount. -/
theorem slRows_amount_facts (g : Grid) (dcol acol : Col) (cpCol : Option Col)
    (dates : List (Option Int)) :
    ∀ r ∈ slRows g dcol acol cpCol dates, ∃ q, r.amount = some q ∧ q ≠ 0 := by
  intro r hr
  unfold slRows at hr
  have h2 := List.mem_filter.mp hr
  have h1 := List.mem_filter.mp h2.1
  have hsa := h1.2
  rw [Bool.and_eq_true] at hsa
  obtain ⟨q, hq⟩ := Option.isSome_iff_exists.mp hsa.2
  refine ⟨q, hq, fun hq0 => ?_⟩
  subst hq0
  rw [hq] at h2
  simp at h2

/-- Full-pipeline unfolding for an event-list grid whose date column parses:
`normalise_cash_grid` succeeds and maps each surviving processor row through
type inference, sign normalization, and cleanup. -/
theorem normalise_simple_run (today : Int) (g : Grid) (sheet : Option String)
    (dcol acol : Col) (dtl atl : List Col) (dates : List (Option Int))
    (f : IRow → TxnType)
    (hne : g.isEmptyTable = false)
    (hdet : _detect_grid_layout g = "simple_list")
    (hd : _find_date_columns g = dcol :: dtl)
    (ha : _find_amount_columns g = acol :: atl)
    (hdt : toDatetimeRaise dcol.cells = .ok dates)
    (hinf : _infer_transaction_type (slRows g dcol acol (findCounterpartyCol g) dates) sheet
        = (slRows g dcol acol (findCounterpartyCol g) dates).map f) :
    normalise_cash_grid today g sheet =
      .ok { columns := requiredCols
            rows := (slRows g dcol acol (findCounterpartyCol g) dates).map (finalizeRow f) } := by
  have hsel : selectAndProcess today g =
      .ok (slRows g dcol acol (findCounterpartyCol g) dates) := by
    unfold selectAndProcess
    rw [hdet, if_neg (by decide : ¬ ("simple_list" : String) = "longwave"),
      if_pos rfl]
    exact _process_simple_list_eq g dcol acol dtl atl dates hd ha hdt
  have h1 : normalise_cash_grid today g sheet =
      _cleanup_normalized_data
        (((_infer_transaction_type (slRows g dcol acol (findCounterpartyCol g) dates) sheet).zip
            (slRows g dcol acol (findCounterpartyCol g) dates)).map fun tr =>
          (tr.1, { tr.2 with amount := tr.2.amount.map fun q => |q| })) := by
    unfold normalise_cash_grid
    rw [if_neg (by simp [hne]), hsel]
  rw [h1, hinf, zip_map_self, List.map_map]
  rw [cleanup_ok_of_amounts _ (by
    intro tr htr
    obtain ⟨r, hrin, rfl⟩ := List.mem_map.mp htr
    obtain ⟨q, hq, hqz⟩ := slRows_amount_facts g dcol acol (findCounterpartyCol g) dates r hrin
    exact ⟨|q|, by simp [Function.comp, hq], abs_ne_zero.mpr hqz⟩)]
  congr 1
  congr 1
  rw [List.map_map]
  apply List.map_congr_left
  intro r _
  simp [Function.comp, finalizeRow, map_abs_getD]

/-- C4 (amended): for an event-list grid whose chosen date column has no
non-missing unparseable value, `normalise_cash_grid` returns successfully and
the output row count equals the number of raw rows with a present, parseable
date and a present, non-zero amount — so a row whose date cell is missing is
silently absent and the count is exactly one less than with that row valid.
A non-missing value that fails to parse instead makes the call raise (see the
counterexample). -/
theorem c4_amended_missing_date_dropped (today : Int) (g : Grid)
    (sheet : Option String) (dcol acol : Col) (dtl atl : List Col)
    (dates : List (Option Int))
    (hne : g.isEmptyTable = false)
    (hdet : _detect_grid_layout g = "simple_list")
    (hd : _find_date_columns g = dcol :: dtl)
    (ha : _find_amount_columns g = acol :: atl)
    (hdt : toDatetimeRaise dcol.cells = .ok dates) :
    ∃ t, normalise_cash_grid today g sheet = .ok t ∧
      t.rows.length =
        ((List.range g.nRows).filter fun i =>
          !(cellToNumCoerce (acol.cells.getD i .blank) == some 0) &&
          ((dates.getD i none).isSome &&
            (cellToNumCoerce (acol.cells.getD i .blank)).isSome)).length := by
  obtain ⟨f, hinf⟩ := infer_eq_map (slRows g dcol acol (findCounterpartyCol g) dates) sheet
  refine ⟨_, normalise_simple_run today g sheet dcol acol dtl atl dates f
    hne hdet hd ha hdt hinf, ?_⟩
  simp only [List.length_map]
  unfold slRows
  rw [List.filter_filter, length_filter_map]
  exact congrArg List.length (List.filter_congr fun i _ => rfl)

/-- Witness for C4 at a three-row event-list grid whose middle date cell is
missing: the call succeeds and returns two rows. -/
theorem c4_amended_missing_date_dropped_witness :
    ∃ t, normalise_cash_grid 0 exGridBlankDate none = .ok t ∧
      t.rows.length = 2 := by
  obtain ⟨t, h1, h2⟩ := c4_amended_missing_date_dropped 0 exGridBlankDate none
    exColBlankDate exColAmounts [] [] [some 19723, none, some 19725]
    (by with_unfolding_all rfl) (by with_unfolding_all rfl)
    (by with_unfolding_all rfl) (by with_unfolding_all rfl)
    (by with_unfolding_all rfl)
  refine ⟨t, h1, ?_⟩
  rw [h2]
  with_unfolding_all rfl

/-- C4 counterexample: an event-list grid with one non-missing date value
that cannot be parsed makes `normalise_cash_grid` raise a (pandas) parse
error instead of returning with the row dropped. -/
theorem c4_counterexample_unparseable_date_raises :
    normalise_cash_grid 0 exGridBadDate none =
      .error (.pyError "Unable to parse date") := by
  with_unfolding_all rfl

/-- C10: in the event-list path with a detected counterparty column, a row
whose counterparty cell is missing (and whose date and amount are valid)
survives to the output with the literal text "nan" as its counterparty — the
cleanup's null/empty replacement does not turn it into "Unknown". -/
theorem c10_missing_counterparty_stringifies_to_nan (today : Int) (g : Grid)
    (sheet : Option String) (dcol acol ccol : Col) (dtl atl : List Col)
    (dates : List (Option Int)) (i : Nat) (d : Int) (q : ℚ)
    (hne : g.isEmptyTable = false)
    (hdet : _detect_grid_layout g = "simple_list")
    (hd : _find_date_columns g = dcol :: dtl)
    (ha : _find_amount_columns g = acol :: atl)
    (hdt : toDatetimeRaise dcol.cells = .ok dates)
    (hcp : findCounterpartyCol g = some ccol)
    (hi : i < g.nRows)
    (hblank : ccol.cells.getD i .blank = .blank)
    (hdate : dates.getD i none = some d)
    (hamt : cellToNumCoerce (acol.cells.getD i .blank) = some q)
    (hq : q ≠ 0) :
    ∃ t, normalise_cash_grid today g sheet = .ok t ∧
      ∃ r ∈ t.rows, r.counterparty = .str "nan" ∧
        r.line_source = toString i ++ ":" ++ dcol.name ++ "+" ++ acol.name := by
  obtain ⟨f, hinf⟩ := infer_eq_map (slRows g dcol acol (findCounterpartyCol g) dates) sheet
  refine ⟨_, normalise_simple_run today g sheet dcol acol dtl atl dates f
    hne hdet hd ha hdt hinf, ?_⟩
  have hmem : mkSimpleRow dcol acol (findCounterpartyCol g) dates i ∈
      slRows g dcol acol (findCounterpartyCol g) dates := by
    unfold slRows
    apply List.mem_filter.mpr
    refine ⟨List.mem_filter.mpr ⟨List.mem_map_of_mem _ (List.mem_range.mpr hi), ?_⟩, ?_⟩
    · show ((dates.getD i none).isSome &&
        (cellToNumCoerce (acol.cells.getD i .blank)).isSome) = true
      rw [hdate, hamt]
      rfl
    · show (!(cellToNumCoerce (acol.cells.getD i .blank) == some 0)) = true
      rw [hamt]
      simp [hq]
  refine ⟨finalizeRow f (mkSimpleRow dcol acol (findCounterpartyCol g) dates i),
    List.mem_map_of_mem _ hmem, ?_, rfl⟩
  show fillCounterparty (mkSimpleRow dcol acol (findCounterpartyCol g) dates i).counterparty
    = .str "nan"
  unfold mkSimpleRow
  rw [hcp]
  show fillCounterparty (Cell.str (cellToStr (ccol.cells.getD i .blank))) = .str "nan"
  rw [hblank]
  rfl

/-- Witness for C10 at a concrete grid whose Vendor cell in row 1 is missing:
the output contains a row with counterparty "nan". -/
theorem c10_missing_counterparty_stringifies_to_nan_witness :
    ∃ t, normalise_cash_grid 0 exGridNanCp none = .ok t ∧
      ∃ r ∈ t.rows, r.counterparty = .str "nan" ∧
        r.line_source = "1:Date+Amount" := by
  obtain ⟨t, h1, r, hr, hcp, hls⟩ :=
    c10_missing_counterparty_stringifies_to_nan 0 exGridNanCp none
      exColTwoDates exColTwoAmounts exColVendorBlank [] []
      [some 19723, some 19724] 1 19724 20
      (by with_unfolding_all rfl) (by with_unfolding_all rfl)
      (by with_unfolding_all rfl) (by with_unfolding_all rfl)
      (by with_unfolding_all rfl) (by with_unfolding_all rfl)
      (by decide) (by with_unfolding_all rfl)
      (by with_unfolding_all rfl) (by with_unfolding_all rfl)
      (by norm_num)
  refine ⟨t, h1, r, hr, hcp, ?_⟩
  rw [hls]
  with_unfolding_all rfl

/-- Unfolding of the longwave processor when a non-numeric column exists. -/
theorem process_longwave_eq (today : Int) (g : Grid) (cp : Col) (tl : List Col)
    (hnn : nonNumericCols g = cp :: tl) :
    _process_longwave_grid today g = .ok (lwRows today g cp) := by
  unfold _process_longwave_grid lwRows lwMelted
  simp only [hnn]

/-- Every longwave row surviving the processor has a present, non-zero
amount. -/
theorem lwRows_amount_facts (today : Int) (g : Grid) (cp : Col) :
    ∀ r ∈ lwRows today g cp, ∃ q, r.amount = some q ∧ q ≠ 0 := by
  intro r hr
  unfold lwRows at hr
  obtain ⟨m, hm, rfl⟩ := List.mem_map.mp hr
  unfold lwMelted at hm
  have h2 := List.mem_filter.mp hm
  have h1 := List.mem_filter.mp h2.1
  obtain ⟨q, hq⟩ := Option.isSome_iff_exists.mp h1.2
  refine ⟨q, hq, fun hq0 => ?_⟩
  subst hq0
  have h3 := h2.2
  rw [hq] at h3
  simp at h3

/-- Full-pipeline unfolding for a longwave grid with a non-numeric column:
`normalise_cash_grid` succeeds and maps each surviving melted record through
type inference, sign normalization, and cleanup. -/
theorem normalise_longwave_run (today : Int) (g : Grid) (sheet : Option String)
    (cp : Col) (tl : List Col) (f : IRow → TxnType)
    (hne : g.isEmptyTable = false)
    (hdet : _detect_grid_layout g = "longwave")
    (hnn : nonNumericCols g = cp :: tl)
    (hinf : _infer_transaction_type (lwRows today g cp) sheet
        = (lwRows today g cp).map f) :
    normalise_cash_grid today g sheet =
      .ok { columns := requiredCols
            rows := (lwRows today g cp).map (finalizeRow f) } := by
  have hsel : selectAndProcess today g = .ok (lwRows today g cp) := by
    unfold selectAndProcess
    rw [hdet, if_pos rfl]
    exact process_longwave_eq today g cp tl hnn
  have h1 : normalise_cash_grid today g sheet =
      _cleanup_normalized_data
        (((_infer_transaction_type (lwRows today g cp) sheet).zip
            (lwRows today g cp)).map fun tr =>
          (tr.1, { tr.2 with amount := tr.2.amount.map fun q => |q| })) := by
    unfold normalise_cash_grid
    rw [if_neg (by simp [hne]), hsel]
  rw [h1, hinf, zip_map_self, List.map_map]
  rw [cleanup_ok_of_amounts _ (by
    intro tr htr
    obtain ⟨r, hrin, rfl⟩ := List.mem_map.mp htr
    obtain ⟨q, hq, hqz⟩ := lwRows_amount_facts today g cp r hrin
    exact ⟨|q|, by simp [Function.comp, hq], abs_ne_zero.mpr hqz⟩)]
  congr 1
  congr 1
  rw [List.map_map]
  apply List.map_congr_left
  intro r _
  simp [Function.comp, finalizeRow, map_abs_getD]

/-- C5 (amended): in the longwave path each output row's provenance tag is
`{position}:{period_column_name}` where `position` is the melted frame's
positional index `j * nRows + i` (period block `j`, raw row `i`) — not the
raw row index `i` itself. -/
theorem c5_amended_line_source_is_melt_position (today : Int) (g : Grid)
    (sheet : Option String) (cp : Col) (tl : List Col)
    (hne : g.isEmptyTable = false)
    (hdet : _detect_grid_layout g = "longwave")
    (hnn : nonNumericCols g = cp :: tl) :
    ∃ t, normalise_cash_grid today g sheet = .ok t ∧
      ∀ r ∈ t.rows, ∃ j i, j < ((numericCols g).take 13).length ∧
        i < g.nRows ∧
        r.line_source =
          toString (j * g.nRows + i) ++ ":" ++
            (((numericCols g).take 13).getD j emptyCol).name := by
  obtain ⟨f, hinf⟩ := infer_eq_map (lwRows today g cp) sheet
  refine ⟨_, normalise_longwave_run today g sheet cp tl f hne hdet hnn hinf, ?_⟩
  intro r hr
  obtain ⟨r0, hr0, rfl⟩ := List.mem_map.mp hr
  unfold lwRows at hr0
  obtain ⟨m, hm, rfl⟩ := List.mem_map.mp hr0
  unfold lwMelted at hm
  have h2 := List.mem_filter.mp hm
  have h1 := List.mem_filter.mp h2.1
  have hmm := h1.1
  unfold meltLongwave at hmm
  obtain ⟨j, hj, hmj⟩ := List.mem_flatMap.mp hmm
  obtain ⟨i, hi, rfl⟩ := List.mem_map.mp hmj
  exact ⟨j, i, List.mem_range.mp hj, List.mem_range.mp hi, rfl⟩

/-- Witness for C5's amended statement at the concrete longwave grid. -/
theorem c5_amended_line_source_is_melt_position_witness :
    ∃ t, normalise_cash_grid 0 exGridLW none = .ok t ∧
      ∀ r ∈ t.rows, ∃ j i, j < ((numericCols exGridLW).take 13).length ∧
        i < exGridLW.nRows ∧
        r.line_source =
          toString (j * exGridLW.nRows + i) ++ ":" ++
            (((numericCols exGridLW).take 13).getD j emptyCol).name :=
  c5_amended_line_source_is_melt_position 0 exGridLW none
    ⟨"Vendor", [.str "A", .str "B"]⟩ []
    (by with_unfolding_all rfl) (by with_unfolding_all rfl)
    (by with_unfolding_all rfl)

/-- C5 counterexample: in the concrete longwave grid whose only non-zero cell
sits in raw row 1 under period column W2, the output provenance tag is
"3:W2" (melted position 1 * 2 + 1), not the "1:W2" the claim predicts. -/
theorem c5_counterexample_line_source_not_row_index :
    (normalise_cash_grid 0 exGridLW none =
      .ok ⟨requiredCols, [⟨.AR, .str "B", some 7, 5, "3:W2"⟩]⟩) ∧
    ("3:W2" : String) ≠ "1:W2" :=
  ⟨by with_unfolding_all rfl, by decide⟩

/-- The final heap step never changes the store's first object. -/
theorem finishExec_fst_head (a b : HeapObj) (e : Except NormError OutTable) :
    (finishExec [a, b] e).1.head? = some a := by
  cases e <;> rfl

/-- The final heap step returns the cleanup's result unchanged. -/
theorem finishExec_snd (heap3 : List HeapObj) (e : Except NormError OutTable) :
    (finishExec heap3 e).2 = e := by
  cases e <;> rfl

/-- C9: the caller's raw grid object, heap position 0, is untouched by the
call — every in-place column assignment of the source targets frames
allocated within the call — and the heap-level rendering returns exactly what
`normalise_cash_grid` returns. -/
theorem c9_raw_grid_never_mutated (today : Int) (g : Grid)
    (sheet : Option String) :
    (normaliseExec today g sheet).1.head? = some (.gridObj g) ∧
    (normaliseExec today g sheet).2 = normalise_cash_grid today g sheet := by
  unfold normaliseExec normalise_cash_grid
  cases he : g.isEmptyTable with
  | true => exact ⟨rfl, rfl⟩
  | false =>
    cases hp : selectAndProcess today g with
    | error e => exact ⟨rfl, rfl⟩
    | ok rs => exact ⟨finishExec_fst_head _ _ _, finishExec_snd _ _⟩

/-- C1 at the failing input: a single-row event-list grid whose amount is
0.004 normalizes successfully, but the returned row's amount is 0.00 — not
strictly positive, because the zero-row drop runs before quantization. -/
theorem c1_subcent_amount_not_positive :
    ∃ t, normalise_cash_grid 0 exGridSubCent none = .ok t ∧
      ∃ r ∈ t.rows, ¬ 0 < r.amount := by
  refine ⟨⟨requiredCols, [⟨.AR, .str "Unknown", some 19723, 0, "0:Date+Amount"⟩]⟩,
    by with_unfolding_all rfl,
    ⟨.AR, .str "Unknown", some 19723, 0, "0:Date+Amount"⟩,
    List.mem_singleton.mpr rfl, by simp⟩

end Sybil
